import Mathlib

/-!
Shallow embedding of `src/SCPI/RS232.py` (SCPI RS232 instrument layer):
the command encoder `RS232.set_CONFIG`, the meter/scanner configuration
methods `DMM34401A.set_CONF` and `MX34970A.set_CONF`, the response
readers `RS232.read_meas` and `MX34970A.read_meas`, and the acquisition
loop `read_instruments`.

Serial I/O is modelled by recording the exact command strings written to
the port and by supplying the raw response line of each `readline` call
as an input.  Python floats are modelled as exact rationals; exceptions
as explicit error values.
-/

namespace SCPI

/-- Errors of the Python fragment we model: `TypeError` (e.g. iterating a
non-iterable), `ValueError` (raised by `float(...)` on a bad literal) and
`IndexError` (list subscript out of range). `KeyboardInterrupt` is modelled
separately as a loop event, since the acquisition loop catches it. -/
inductive PyErr where
  | typeError
  | valueError
  | indexError
deriving DecidableEq

/-- Python values that flow through the configuration call chain:
integers, strings, lists and `None`.  This is the dynamic-typing model
needed because `read_instruments` forwards its `val_range`, `val_res`
and `channels` arguments untyped into `set_CONF`. -/
inductive PyVal where
  | int (n : Int)
  | str (s : String)
  | list (xs : List PyVal)
  | none

mutual

/-- Boolean equality on `PyVal` (structural). -/
def pyBeq : PyVal → PyVal → Bool
  | .int a, .int b => a == b
  | .str a, .str b => a == b
  | .list a, .list b => pyBeqList a b
  | .none, .none => true
  | _, _ => false

/-- Boolean equality on lists of `PyVal`. -/
def pyBeqList : List PyVal → List PyVal → Bool
  | [], [] => true
  | a :: as, b :: bs => pyBeq a b && pyBeqList as bs
  | _, _ => false

end

mutual

theorem pyBeq_iff : ∀ a b : PyVal, pyBeq a b = true ↔ a = b
  | .int a, .int b => by simp [pyBeq]
  | .int _, .str _ => by simp [pyBeq]
  | .int _, .list _ => by simp [pyBeq]
  | .int _, .none => by simp [pyBeq]
  | .str _, .int _ => by simp [pyBeq]
  | .str a, .str b => by simp [pyBeq]
  | .str _, .list _ => by simp [pyBeq]
  | .str _, .none => by simp [pyBeq]
  | .list _, .int _ => by simp [pyBeq]
  | .list _, .str _ => by simp [pyBeq]
  | .list a, .list b => by
      simp only [pyBeq, PyVal.list.injEq]
      exact pyBeqList_iff a b
  | .list _, .none => by simp [pyBeq]
  | .none, .int _ => by simp [pyBeq]
  | .none, .str _ => by simp [pyBeq]
  | .none, .list _ => by simp [pyBeq]
  | .none, .none => by simp [pyBeq]

theorem pyBeqList_iff : ∀ a b : List PyVal, pyBeqList a b = true ↔ a = b
  | [], [] => by simp [pyBeqList]
  | [], _ :: _ => by simp [pyBeqList]
  | _ :: _, [] => by simp [pyBeqList]
  | a :: as, b :: bs => by
      simp only [pyBeqList, Bool.and_eq_true, List.cons.injEq]
      exact and_congr (pyBeq_iff a b) (pyBeqList_iff as bs)

end

instance : DecidableEq PyVal :=
  fun a b => decidable_of_iff (pyBeq a b = true) (pyBeq_iff a b)

mutual

/-- Python `repr` on the modelled values (used by `str` on a list, which
formats each element with `repr`). -/
def pyRepr : PyVal → String
  | .int n => toString n
  | .str s => "\x27" ++ s ++ "\x27"
  | .list xs => "[" ++ String.intercalate ", " (pyReprList xs) ++ "]"
  | .none => "None"

/-- Helper of `pyRepr` for the elements of a list value. -/
def pyReprList : List PyVal → List String
  | [] => []
  | x :: xs => pyRepr x :: pyReprList xs

end

/-- Python `str` (the conversion applied by f-string interpolation):
identity on strings, decimal on integers, `repr`-elementwise on lists. -/
def pyStr : PyVal → String
  | .int n => toString n
  | .str s => s
  | .list xs => "[" ++ String.intercalate ", " (pyReprList xs) ++ "]"
  | .none => "None"

/-- Python iteration over a value: a list yields its elements, a string
yields its characters (as one-character strings), and an integer or
`None` raises `TypeError`. -/
def pyIter : PyVal → Except PyErr (List PyVal)
  | .list xs => .ok xs
  | .str s => .ok (s.toList.map fun c => .str (String.mk [c]))
  | .int _ => .error .typeError
  | .none => .error .typeError

instance {ε α : Type} [DecidableEq ε] [DecidableEq α] :
    DecidableEq (Except ε α) := fun x y =>
  match x, y with
  | .ok a, .ok b =>
    match decEq a b with
    | isTrue h => isTrue (by rw [h])
    | isFalse h => isFalse fun he => h (Except.ok.inj he)
  | .ok _, .error _ => isFalse fun he => Except.noConfusion he
  | .error _, .ok _ => isFalse fun he => Except.noConfusion he
  | .error e, .error f =>
    match decEq e f with
    | isTrue h => isTrue (by rw [h])
    | isFalse h => isFalse fun he => h (Except.error.inj he)

/-- Accumulates the value of a decimal digit string. -/
def digitsToNat (acc : Nat) : List Char → Nat
  | [] => acc
  | c :: cs => digitsToNat (acc * 10 + (c.toNat - 48)) cs

/-- A Python float as parsed from a decimal literal, kept exact as a
signed decimal mantissa and a decimal exponent: the denoted number is
`num * 10 ^ exp`.  (Binary rounding of the IEEE double is not modelled;
the representation stays exact, see `PyFloat.toRat`.) -/
structure PyFloat where
  num : Int
  exp : Int
deriving DecidableEq

/-- The exact rational a `PyFloat` denotes. -/
def PyFloat.toRat (f : PyFloat) : Rat :=
  (f.num : Rat) * (10 : Rat) ^ f.exp

/-- Value of a parsed float literal: sign, integer digits, fraction
digits, decimal exponent. -/
def floatOfParts (sgn : Int) (ip fp : List Char) (e : Int) : PyFloat :=
  ⟨sgn * (digitsToNat 0 ip * 10 ^ fp.length + digitsToNat 0 fp),
   e - fp.length⟩

/-- ASCII/latin whitespace test used when stripping a float literal. -/
def isSpace (c : Char) : Bool := c.isWhitespace

/-- Leading and trailing whitespace removed, as Python `float` does to
its argument. -/
def stripChars (cs : List Char) : List Char :=
  ((cs.dropWhile isSpace).reverse.dropWhile isSpace).reverse

/-- Model of Python `s.split(c)` for a one-character separator: the
maximal runs between separator occurrences, with empty runs kept
(`"".split(',') == ['']`). -/
def splitAux (c : Char) : List Char → List Char → List String
  | [], acc => [String.mk acc.reverse]
  | x :: xs, acc =>
    if x = c then String.mk acc.reverse :: splitAux c xs []
    else splitAux c xs (x :: acc)

/-- Python `s.split(c)` on a string. -/
def pySplit (c : Char) (s : String) : List String :=
  splitAux c s.toList []

/-- Optional exponent tail of a float literal: empty means exponent 0;
otherwise `e`/`E`, an optional sign and a nonempty digit run consuming
the whole remainder. -/
def expPart : List Char → Option Int
  | [] => some 0
  | c :: r =>
    if c = 'e' ∨ c = 'E' then
      let (es, r2) : Int × List Char :=
        match r with
        | '+' :: t => (1, t)
        | '-' :: t => (-1, t)
        | _ => (1, r)
      let (ds, r3) := r2.span (·.isDigit)
      if ds.isEmpty ∨ ¬ r3.isEmpty then Option.none
      else some (es * (digitsToNat 0 ds : Int))
    else Option.none

/-- Model of Python `float(s)` on decimal literals: surrounding
whitespace is stripped, then an optional sign, digits with an optional
fraction (at least one digit overall) and an optional exponent must
consume the whole string; the value is the exact decimal denoted.
(`inf`/`nan` and digit-group underscores are outside the model.)
Returns `none` exactly where `float` raises `ValueError`. -/
def parseFloat (s : String) : Option PyFloat :=
  let cs := stripChars s.toList
  let (sgn, cs1) : Int × List Char :=
    match cs with
    | '+' :: r => (1, r)
    | '-' :: r => (-1, r)
    | _ => (1, cs)
  let (ip, r1) := cs1.span (·.isDigit)
  match r1 with
  | '.' :: r2 =>
    let (fp, r3) := r2.span (·.isDigit)
    if ip.isEmpty ∧ fp.isEmpty then Option.none
    else (expPart r3).map (floatOfParts sgn ip fp)
  | _ =>
    if ip.isEmpty then Option.none
    else (expPart r1).map (floatOfParts sgn ip [])

/-- Python `s[:-2]`: the decoded response line with its last two
characters (the `\r\n` terminator) removed (`RS232.py` lines 188/190). -/
def strip2 (s : String) : String := s.dropRight 2

/-- Model of `RS232.set_CONFIG` (`RS232.py` lines 144-168): the list of
command strings written to the serial port for one call.  Each
recognized measurement mode writes one command with its SCPI verb; an
unrecognized mode writes nothing. -/
def set_CONFIG (conf : String) (params : String) : List String :=
  if conf = "DCV" then ["CONF:VOLT:DC " ++ params ++ "\n"]
  else if conf = "ACV" then ["CONF:VOLT:AC " ++ params ++ "\n"]
  else if conf = "DCI" then ["CONF:CURR:DC " ++ params ++ "\n"]
  else if conf = "ACI" then ["CONF:CURR:AC " ++ params ++ "\n"]
  else if conf = "RES2" then ["CONF:RES " ++ params ++ "\n"]
  else if conf = "RES4" then ["CONF:FRES " ++ params ++ "\n"]
  else if conf = "FREQ" then ["CONF:FREQ " ++ params ++ "\n"]
  else if conf = "PER" then ["CONF:PER " ++ params ++ "\n"]
  else []

/-- The SCPI verb selected by `set_CONFIG` for a mode tag, `none` for an
unrecognized tag. -/
def verbOf (conf : String) : Option String :=
  if conf = "DCV" then some "CONF:VOLT:DC"
  else if conf = "ACV" then some "CONF:VOLT:AC"
  else if conf = "DCI" then some "CONF:CURR:DC"
  else if conf = "ACI" then some "CONF:CURR:AC"
  else if conf = "RES2" then some "CONF:RES"
  else if conf = "RES4" then some "CONF:FRES"
  else if conf = "FREQ" then some "CONF:FREQ"
  else if conf = "PER" then some "CONF:PER"
  else Option.none

/-- The recognized measurement-mode tags of `set_CONFIG`. -/
def modeTags : List String :=
  ["DCV", "ACV", "DCI", "ACI", "RES2", "RES4", "FREQ", "PER"]

/-- Parameter tail built by `DMM34401A.set_CONF` (`RS232.py` line 219):
the f-string `"{val_range}, {val_res}"`. -/
def dmmParams (val_range val_res : PyVal) : String :=
  pyStr val_range ++ ", " ++ pyStr val_res

/-- Model of `DMM34401A.set_CONF` (`RS232.py` lines 210-220).  The
fourth parameter `_` is a placeholder and unused. -/
def DMM34401A.set_CONF (conf : String) (val_range val_res : PyVal)
    (_placeholder : PyVal) : List String :=
  set_CONFIG conf (dmmParams val_range val_res)

/-- Parameter tail built by `MX34970A.set_CONF` (`RS232.py` lines
250/254): the f-string `"{range}, {res}, (@{channels})"`. -/
def mxParams (r val_res : PyVal) (chanStr : String) : String :=
  pyStr r ++ ", " ++ pyStr val_res ++ ", (@" ++ chanStr ++ ")"

/-- Per-channel command emission of `MX34970A.set_CONF`, list-range
branch (`RS232.py` lines 249-251): `for idx, ch in enumerate(channels)`
with subscript `val_range[idx]` (an out-of-range subscript raises
`IndexError`). -/
def mxListCmds (conf : String) (rs : List PyVal) (val_res : PyVal) :
    List PyVal → Nat → Except PyErr (List String)
  | [], _ => .ok []
  | ch :: rest, idx =>
    match rs.get? idx with
    | some r => do
      let more ← mxListCmds conf rs val_res rest (idx + 1)
      .ok (set_CONFIG conf (mxParams r val_res (pyStr ch)) ++ more)
    | Option.none => .error .indexError

/-- Model of `MX34970A.set_CONF` (`RS232.py` lines 238-255).  NOTE the
parameter order of the source: `(conf, channels, val_range, val_res)`.
A list-valued `val_range` emits one command per channel; otherwise the
channels are joined into one batched command. -/
def MX34970A.set_CONF (conf : String) (channels val_range val_res : PyVal) :
    Except PyErr (List String) :=
  match val_range with
  | .list rs => do
    let chs ← pyIter channels
    mxListCmds conf rs val_res chs 0
  | _ => do
    let chs ← pyIter channels
    let channel_str := String.intercalate "," (chs.map pyStr)
    .ok (set_CONFIG conf (mxParams val_range val_res channel_str))

/-- Model of `RS232.read_meas` (`RS232.py` lines 178-192) as a function
of the decoded response line: strip the last two characters, try
`float(...)`; on `ValueError` return the stripped text itself. -/
def RS232.read_meas (line : String) : PyFloat ⊕ String :=
  match parseFloat (strip2 line) with
  | some q => Sum.inl q
  | Option.none => Sum.inr (strip2 line)

/-- Python list comprehension `[float(val) for val in segs]` over
`Option`: evaluates left to right and fails (raises `ValueError`) at the
first segment `float` rejects. -/
def floatList : List String → Option (List PyFloat)
  | [] => some []
  | s :: rest =>
    match parseFloat s with
    | some q => (floatList rest).map (q :: ·)
    | Option.none => Option.none

/-- Model of `MX34970A.read_meas` (`RS232.py` lines 257-268) as a
function of the decoded response line: delegate to `RS232.read_meas`;
if that degraded to a string, split on commas and convert every segment
with `float` (raising `ValueError` if any segment fails), else return
the float unchanged. -/
def MX34970A.read_meas (line : String) : Except PyErr (List PyFloat ⊕ PyFloat) :=
  match RS232.read_meas line with
  | Sum.inr s =>
    match floatList (pySplit ',' s) with
    | some qs => .ok (Sum.inl qs)
    | Option.none => .error .valueError
  | Sum.inl q => .ok (Sum.inr q)

/-- Instrument kinds of the repository: the single-channel meter
`DMM34401A` and the multi-channel scanner `MX34970A`.  Only the kind
matters for command generation and response decoding. -/
inductive InstrKind where
  | meter
  | scanner
deriving DecidableEq

/-- The `instruments` argument of `read_instruments` as the caller may
supply it: a Python list of instruments, a non-list iterable of
instruments (`list(...)` succeeds and wraps it), or a non-iterable
object such as a single instrument instance (`list(...)` raises
`TypeError`). -/
inductive PyInstrsArg where
  | pyList (l : List InstrKind)
  | iterable (l : List InstrKind)
  | nonIterable
deriving DecidableEq

/-- The `conf` argument of `read_instruments`: one mode tag for all
instruments, or a per-instrument list of tags. -/
inductive ConfSpec where
  | scalar (c : String)
  | list (cs : List String)
deriving DecidableEq

/-- Entry normalization of the instruments argument (`RS232.py` lines
62-63): a non-list argument is passed to the `list` constructor, which
wraps an iterable and raises `TypeError` on a non-iterable. -/
def normalizeInstrs : PyInstrsArg → Except PyErr (List InstrKind)
  | .pyList l => .ok l
  | .iterable l => .ok l
  | .nonIterable => .error .typeError

/-- Mode-spec normalization (`RS232.py` lines 67-68): a scalar `conf`
becomes `[conf] * len(instruments)`; a list is kept as supplied. -/
def normalizeConf : ConfSpec → Nat → List String
  | .scalar c, n => List.replicate n c
  | .list cs, _ => cs

/-- State of the pair `(conf, val_range)` after the normalization step of
`read_instruments` (lines 67-68): only `conf` is rewritten; `val_range`
is left exactly as the caller supplied it. -/
def normalizeRunSpecs (conf : ConfSpec) (val_range : PyVal) (n : Nat) :
    List String × PyVal :=
  (normalizeConf conf n, val_range)

/-- Modelled from the spec (§4.5 step 1), for comparison with
`normalizeRunSpecs`: the claimed normalization in which a scalar range
spec is also expanded to one value per instrument. -/
def normalizeSpecsClaimed (conf : ConfSpec) (val_range : PyVal) (n : Nat) :
    List String × PyVal :=
  (normalizeConf conf n,
   match val_range with
   | .list rs => .list rs
   | v => .list (List.replicate n v))

/-- The positional call `ins.set_CONF(conf[idx], val_range, val_res,
channels)` of `RS232.py` line 70, dispatched on the instrument's class.
The scanner's `set_CONF` binds these positional arguments to its own
parameter order `(conf, channels, val_range, val_res)`. -/
def configCall (k : InstrKind) (conf : String) (a b c : PyVal) :
    Except PyErr (List String) :=
  match k with
  | .meter => .ok (DMM34401A.set_CONF conf a b c)
  | .scanner => MX34970A.set_CONF conf a b c

/-- Configuration phase of `read_instruments` (lines 69-71): iterate the
instruments in order, pairing instrument `idx` with `conf[idx]` (an
exhausted conf list raises `IndexError`), and accumulate every command
written to the serial ports. -/
def configPhase (a b c : PyVal) :
    List InstrKind → List String → List String × Option PyErr
  | [], _ => ([], Option.none)
  | _ :: _, [] => ([], some .indexError)
  | k :: ks, cf :: cfs =>
    match configCall k cf a b c with
    | .error e => ([], some e)
    | .ok cmds =>
      let r := configPhase a b c ks cfs
      (cmds ++ r.1, r.2)

/-- One `ins.read_meas()` of the read loop (`RS232.py` lines 84-89),
given the raw response line of that instrument: a meter value is
appended as one entry (float, or degraded string), a scanner's list
value is flattened entrywise (`measurements.extend`). -/
def readMeasurement (k : InstrKind) (line : String) :
    Except PyErr (List (PyFloat ⊕ String)) :=
  match k with
  | .meter =>
    match RS232.read_meas line with
    | Sum.inl q => .ok [Sum.inl q]
    | Sum.inr s => .ok [Sum.inr s]
  | .scanner =>
    match MX34970A.read_meas line with
    | .ok (Sum.inl qs) => .ok (qs.map Sum.inl)
    | .ok (Sum.inr q) => .ok [Sum.inl q]
    | .error e => .error e

/-- One read cycle over all instruments in their fixed order, given one
raw response line per instrument (paired positionally). -/
def readAll : List (InstrKind × String) → Except PyErr (List (PyFloat ⊕ String))
  | [] => .ok []
  | (k, line) :: rest => do
    let v ← readMeasurement k line
    let more ← readAll rest
    .ok (v ++ more)

/-- External events driving one surviving iteration of the read loop: a
`tick` carries the value `time.time()` returns at the top of the body
and the raw response line of each instrument, in instrument order; an
`interrupt` is a `KeyboardInterrupt` delivered at the loop head. -/
inductive IterEvent where
  | tick (toc : Int) (lines : List String)
  | interrupt
deriving DecidableEq

/-- A Sample Record as assembled on `RS232.py` line 91: elapsed time
`toc - tic` followed by the flattened measurements of one cycle. -/
def Record := Int × List (PyFloat ⊕ String)
deriving DecidableEq

/-- The read loop of `read_instruments` (lines 80-104): while the
previous iteration's `toc` satisfies `toc - tic < meas_time`, refresh
`toc`, read every instrument, and emit the record.  A
`KeyboardInterrupt` is caught by the surrounding handler and ends the
loop normally (`pass`); a `ValueError` escaping a scanner read
propagates as the loop's error.  Records already emitted are retained in
either case (they were already streamed to the sink).  An exhausted
event list means no further iteration occurs. -/
def runLoop (instrs : List InstrKind) (tic meas_time : Int) :
    Int → List IterEvent → List Record × Option PyErr
  | _, [] => ([], Option.none)
  | toc, e :: rest =>
    if toc - tic < meas_time then
      match e with
      | .interrupt => ([], Option.none)
      | .tick t lines =>
        match readAll (instrs.zip lines) with
        | .error err => ([], some err)
        | .ok meas =>
          let r := runLoop instrs tic meas_time t rest
          ((t - tic, meas) :: r.1, r.2)
    else ([], Option.none)

/-- Observable outcome of one `read_instruments` call: every command
string written to the serial ports in order, every Sample Record
forwarded to the sink (console and optional file), and the exception
escaping the call, if any (`none` means the call returned normally). -/
structure RunOutcome where
  sent : List String
  records : List Record
  err : Option PyErr
deriving DecidableEq

/-- Model of `read_instruments` (`RS232.py` lines 45-104).  `filename`
(which only gates the file write, not record assembly) and the sleep
calls are not modelled; `tic` is the start time and `events` supplies
the timestamps and response lines of the read loop.  Timestamps are
modelled as integers: the loop only subtracts and compares them. -/
def read_instruments (conf : ConfSpec) (instrumentsArg : PyInstrsArg)
    (meas_time : Int) (val_range val_res channels : PyVal)
    (tic : Int) (events : List IterEvent) : RunOutcome :=
  match normalizeInstrs instrumentsArg with
  | .error e => ⟨[], [], some e⟩
  | .ok instruments =>
    let cp := configPhase (normalizeRunSpecs conf val_range instruments.length).2
      val_res channels instruments (normalizeRunSpecs conf val_range instruments.length).1
    match cp.2 with
    | some e => ⟨cp.1, [], some e⟩
    | Option.none =>
      let lr := runLoop instruments tic meas_time tic events
      ⟨cp.1, lr.1, lr.2⟩

/-! ## Helper lemmas -/

/-- When `verbOf` recognizes a mode tag, `set_CONFIG` sends exactly one
command: that verb, a space, the parameter tail and the newline. -/
theorem set_CONFIG_of_verb (conf v params : String) (hv : verbOf conf = some v) :
    set_CONFIG conf params = [v ++ " " ++ params ++ "\n"] := by
  unfold verbOf at hv
  unfold set_CONFIG
  split_ifs at hv ⊢
  all_goals
    first
      | exact Option.noConfusion hv
      | (injection hv with hv; subst hv; rfl)

/-- The comprehension `[float(val) for val in l]` fails exactly when some
segment fails to convert. -/
theorem floatList_eq_none_iff (l : List String) :
    floatList l = Option.none ↔ ∃ x ∈ l, parseFloat x = Option.none := by
  induction l with
  | nil => simp [floatList]
  | cons a t ih =>
    simp only [floatList]
    cases h : parseFloat a with
    | none =>
      constructor
      · intro _
        exact ⟨a, by simp, h⟩
      · intro _
        rfl
    | some q =>
      simp only [Option.map_eq_none']
      rw [ih]
      constructor
      · rintro ⟨x, hx, hpx⟩
        exact ⟨x, by simp [hx], hpx⟩
      · rintro ⟨x, hx, hpx⟩
        rcases List.mem_cons.mp hx with rfl | hxt
        · rw [h] at hpx
          exact absurd hpx (by simp)
        · exact ⟨x, hxt, hpx⟩

/-- Appending a `KeyboardInterrupt` (and anything after it) to an
error-free event schedule leaves the emitted records unchanged and ends
the loop without an escaping exception. -/
theorem runLoop_append_interrupt (instrs : List InstrKind) (tic mt : Int)
    (rest : List IterEvent) :
    ∀ (pre : List IterEvent) (toc : Int),
      (runLoop instrs tic mt toc pre).2 = Option.none →
      runLoop instrs tic mt toc (pre ++ .interrupt :: rest)
        = ((runLoop instrs tic mt toc pre).1, Option.none) := by
  intro pre
  induction pre with
  | nil =>
    intro toc _
    by_cases hc : toc - tic < mt <;> simp [runLoop, hc]
  | cons e t ih =>
    intro toc hok
    cases e with
    | interrupt =>
      by_cases hc : toc - tic < mt <;> simp [runLoop, hc]
    | tick ts lines =>
      by_cases hc : toc - tic < mt
      · cases hra : readAll (instrs.zip lines) with
        | error err =>
          exfalso
          simp [runLoop, hc, hra] at hok
        | ok meas =>
          have hok' : (runLoop instrs tic mt ts t).2 = Option.none := by
            simpa [runLoop, hc, hra] using hok
          simp [runLoop, hc, hra, ih ts hok']
      · simp [runLoop, hc]

/-! ## Claim theorems -/

/-- C5: for every supported measurement-mode tag (DCV, ACV, DCI, ACI,
RES2, RES4, FREQ, PER) the encoder produces a command with exactly the
documented SCPI verb, and for every unrecognized mode tag no command is
produced or sent — a silent no-op, not an error. -/
theorem encode_mode_table (params : String) (conf : String)
    (h : conf ∉ modeTags) :
    set_CONFIG "DCV" params = ["CONF:VOLT:DC " ++ params ++ "\n"]
  ∧ set_CONFIG "ACV" params = ["CONF:VOLT:AC " ++ params ++ "\n"]
  ∧ set_CONFIG "DCI" params = ["CONF:CURR:DC " ++ params ++ "\n"]
  ∧ set_CONFIG "ACI" params = ["CONF:CURR:AC " ++ params ++ "\n"]
  ∧ set_CONFIG "RES2" params = ["CONF:RES " ++ params ++ "\n"]
  ∧ set_CONFIG "RES4" params = ["CONF:FRES " ++ params ++ "\n"]
  ∧ set_CONFIG "FREQ" params = ["CONF:FREQ " ++ params ++ "\n"]
  ∧ set_CONFIG "PER" params = ["CONF:PER " ++ params ++ "\n"]
  ∧ set_CONFIG conf params = [] := by
  refine ⟨rfl, rfl, rfl, rfl, rfl, rfl, rfl, rfl, ?_⟩
  simp only [modeTags, List.mem_cons, List.not_mem_nil, or_false] at h
  push_neg at h
  obtain ⟨h1, h2, h3, h4, h5, h6, h7, h8⟩ := h
  simp [set_CONFIG, h1, h2, h3, h4, h5, h6, h7, h8]

/-- Witness for C5 at the unrecognized tag `"XYZ"`. -/
theorem encode_mode_table_witness :
    ("XYZ" : String) ∉ modeTags ∧ set_CONFIG "XYZ" "DEF, MIN" = [] :=
  ⟨by decide, (encode_mode_table "DEF, MIN" "XYZ" (by decide)).2.2.2.2.2.2.2.2⟩

/-- C9: for every pair of Meter configure calls agreeing on mode, range
and resolution, the command bytes sent are identical whether the
channels argument is supplied or omitted — the placeholder parameter has
no influence on the emitted command. -/
theorem meter_configure_ignores_channels (conf : String)
    (val_range val_res ch1 ch2 : PyVal) :
    DMM34401A.set_CONF conf val_range val_res ch1
      = DMM34401A.set_CONF conf val_range val_res ch2 := rfl

/-- C7: every Meter read strips the last two characters (the `\r\n`
terminator) from the raw response line before numeric conversion; if the
remaining text converts wholly to a float that float is returned, and if
conversion fails the stripped raw text is returned as a degraded string
rather than an exception. -/
theorem meter_read_strip_parse_degrade (line : String) :
    (∀ q : PyFloat, parseFloat (strip2 line) = some q →
        RS232.read_meas line = Sum.inl q)
  ∧ (parseFloat (strip2 line) = Option.none →
        RS232.read_meas line = Sum.inr (strip2 line))
  ∧ strip2 line = line.dropRight 2 := by
  refine ⟨?_, ?_, rfl⟩
  · intro q h
    unfold RS232.read_meas
    rw [h]
  · intro h
    unfold RS232.read_meas
    rw [h]

/-- Witness for C7 at a parsing line and a non-parsing line. -/
theorem meter_read_strip_parse_degrade_witness :
    (parseFloat (strip2 "1.234\r\n") = some ⟨1234, -3⟩
      ∧ RS232.read_meas "1.234\r\n" = Sum.inl ⟨1234, -3⟩)
  ∧ (parseFloat (strip2 "ERR-INVALID\r\n") = Option.none
      ∧ RS232.read_meas "ERR-INVALID\r\n" = Sum.inr (strip2 "ERR-INVALID\r\n")
      ∧ strip2 "ERR-INVALID\r\n" = "ERR-INVALID") :=
  ⟨⟨by decide,
    (meter_read_strip_parse_degrade "1.234\r\n").1 ⟨1234, -3⟩ (by decide)⟩,
   ⟨by decide,
    (meter_read_strip_parse_degrade "ERR-INVALID\r\n").2.1 (by decide),
    by decide⟩⟩

/-- C10: a non-list, non-iterable instruments argument (such as a single
instrument object passed directly) makes `read_instruments` raise
`TypeError` at the `list(...)` wrapping, before any configuration
command is sent or any record is produced. -/
theorem non_list_instruments_type_error (conf : ConfSpec) (meas_time : Int)
    (val_range val_res channels : PyVal) (tic : Int)
    (events : List IterEvent) :
    read_instruments conf .nonIterable meas_time val_range val_res channels
        tic events
      = ⟨[], [], some PyErr.typeError⟩ := rfl

/-- C4 counterexample: after the normalization step of the acquisition
loop, a scalar range spec is still the scalar itself, not a
one-value-per-instrument list as the claim states. -/
theorem range_spec_not_normalized :
    normalizeRunSpecs (.scalar "DCV") (.str "DEF") 2
      = (["DCV", "DCV"], PyVal.str "DEF")
  ∧ normalizeSpecsClaimed (.scalar "DCV") (.str "DEF") 2
      = (["DCV", "DCV"], PyVal.list [.str "DEF", .str "DEF"])
  ∧ normalizeRunSpecs (.scalar "DCV") (.str "DEF") 2
      ≠ normalizeSpecsClaimed (.scalar "DCV") (.str "DEF") 2 :=
  ⟨rfl, rfl, by decide⟩

/-- C1 (code bug): the acquisition loop configures each instrument with
the positional call `set_CONF(conf[idx], val_range, val_res, channels)`,
but the Scanner method's parameter order is `(conf, channels, val_range,
val_res)`, so the range spec is bound to the channels parameter (and a
string range spec is iterated character-wise), the resolution becomes
the range, and the channel list becomes the resolution: the command sent
for a Scanner differs from the one produced by the documented contract
binding. -/
theorem acquisition_configure_misbinds_scanner_args :
    (read_instruments (.scalar "DCV") (.pyList [.scanner]) 0 (.str "DEF")
        (.str "MIN") (.list [.int 101, .int 102, .int 103]) 0 []).sent
      = ["CONF:VOLT:DC MIN, [101, 102, 103], (@D,E,F)\n"]
  ∧ MX34970A.set_CONF "DCV" (.list [.int 101, .int 102, .int 103])
        (.str "DEF") (.str "MIN")
      = .ok ["CONF:VOLT:DC DEF, MIN, (@101,102,103)\n"]
  ∧ ("CONF:VOLT:DC MIN, [101, 102, 103], (@D,E,F)\n" : String)
      ≠ "CONF:VOLT:DC DEF, MIN, (@101,102,103)\n" :=
  ⟨by decide, by decide, by decide⟩

/-- C2 counterexample: on the degraded string `"1.5,bad"` the first
segment parses as a float, yet the Scanner read raises `ValueError` —
refuting that a parse error propagates only when every segment fails. -/
theorem scanner_parse_partial_segment_raises :
    RS232.read_meas "1.5,bad\r\n" = Sum.inr "1.5,bad"
  ∧ pySplit ',' "1.5,bad" = ["1.5", "bad"]
  ∧ parseFloat "1.5" = some ⟨15, -1⟩
  ∧ MX34970A.read_meas "1.5,bad\r\n" = .error PyErr.valueError :=
  ⟨by decide, by decide, by decide, by decide⟩

/-- C2 amended: when the underlying raw read degrades to a string, the
Scanner splits it on commas and parses each segment; a parse error for
the whole Sample is propagated exactly when at least one segment fails
to parse, and the read succeeds only when every segment parses. -/
theorem scanner_parse_error_iff_some_segment_fails (line s : String)
    (h : RS232.read_meas line = Sum.inr s) :
    (MX34970A.read_meas line = .error PyErr.valueError
      ↔ ∃ seg ∈ pySplit ',' s, parseFloat seg = Option.none)
  ∧ ∀ qs : List PyFloat,
      MX34970A.read_meas line = .ok (Sum.inl qs)
        ↔ floatList (pySplit ',' s) = some qs := by
  unfold MX34970A.read_meas
  rw [h]
  constructor
  · rw [← floatList_eq_none_iff]
    cases hfl : floatList (pySplit ',' s) with
    | none => simp [hfl]
    | some qs => simp [hfl]
  · intro qs
    cases hfl : floatList (pySplit ',' s) with
    | none => simp [hfl]
    | some qs2 => simp [hfl]

/-- Witness for C2's amended statement on the degraded line `"a,b"`. -/
theorem scanner_parse_error_iff_witness :
    RS232.read_meas "a,b\r\n" = Sum.inr "a,b"
  ∧ ((MX34970A.read_meas "a,b\r\n" = .error PyErr.valueError
      ↔ ∃ seg ∈ pySplit ',' "a,b", parseFloat seg = Option.none)
     ∧ ∀ qs : List PyFloat,
         MX34970A.read_meas "a,b\r\n" = .ok (Sum.inl qs)
           ↔ floatList (pySplit ',' "a,b") = some qs) :=
  ⟨by decide,
   scanner_parse_error_iff_some_segment_fails "a,b\r\n" "a,b" (by decide)⟩

/-- C6: a Scanner configure with a scalar range over channels
`[101,102,103]` sends exactly one batched command whose parameter tail
contains `(@101,102,103)`; with the per-channel ranges `[10,20,30]` it
sends exactly three independent commands, each referencing a single
channel and the corresponding range. -/
theorem scanner_configure_batching (conf v : String)
    (hv : verbOf conf = some v) (val_res : PyVal) :
    MX34970A.set_CONF conf (.list [.int 101, .int 102, .int 103])
        (.int 10) val_res
      = .ok [v ++ " " ++ mxParams (.int 10) val_res "101,102,103" ++ "\n"]
  ∧ MX34970A.set_CONF conf (.list [.int 101, .int 102, .int 103])
        (.list [.int 10, .int 20, .int 30]) val_res
      = .ok [v ++ " " ++ mxParams (.int 10) val_res "101" ++ "\n",
             v ++ " " ++ mxParams (.int 20) val_res "102" ++ "\n",
             v ++ " " ++ mxParams (.int 30) val_res "103" ++ "\n"] := by
  constructor
  · have h1 : MX34970A.set_CONF conf (.list [.int 101, .int 102, .int 103])
        (.int 10) val_res
        = .ok (set_CONFIG conf (mxParams (.int 10) val_res "101,102,103")) := rfl
    rw [h1, set_CONFIG_of_verb conf v (mxParams (.int 10) val_res "101,102,103") hv]
  · have h2 : MX34970A.set_CONF conf (.list [.int 101, .int 102, .int 103])
        (.list [.int 10, .int 20, .int 30]) val_res
        = .ok (set_CONFIG conf (mxParams (.int 10) val_res "101")
            ++ (set_CONFIG conf (mxParams (.int 20) val_res "102")
              ++ (set_CONFIG conf (mxParams (.int 30) val_res "103") ++ []))) := rfl
    rw [h2, set_CONFIG_of_verb conf v (mxParams (.int 10) val_res "101") hv,
        set_CONFIG_of_verb conf v (mxParams (.int 20) val_res "102") hv,
        set_CONFIG_of_verb conf v (mxParams (.int 30) val_res "103") hv]
    rfl

/-- Witness for C6 at mode `"DCV"` and resolution `"MIN"`. -/
theorem scanner_configure_batching_witness :
    verbOf "DCV" = some "CONF:VOLT:DC"
  ∧ (MX34970A.set_CONF "DCV" (.list [.int 101, .int 102, .int 103])
        (.int 10) (.str "MIN")
      = .ok ["CONF:VOLT:DC" ++ " "
              ++ mxParams (.int 10) (.str "MIN") "101,102,103" ++ "\n"]
     ∧ MX34970A.set_CONF "DCV" (.list [.int 101, .int 102, .int 103])
          (.list [.int 10, .int 20, .int 30]) (.str "MIN")
        = .ok ["CONF:VOLT:DC" ++ " " ++ mxParams (.int 10) (.str "MIN") "101" ++ "\n",
               "CONF:VOLT:DC" ++ " " ++ mxParams (.int 20) (.str "MIN") "102" ++ "\n",
               "CONF:VOLT:DC" ++ " " ++ mxParams (.int 30) (.str "MIN") "103" ++ "\n"]) :=
  ⟨rfl, scanner_configure_batching "DCV" "CONF:VOLT:DC" rfl (.str "MIN")⟩

/-- C3: a run cancelled by a `KeyboardInterrupt` during the read loop
terminates gracefully — the interrupt does not propagate to the caller —
and the run's outcome carries exactly the records collected before the
interrupt, not an error value. -/
theorem cancelled_run_returns_collected_records (conf : ConfSpec)
    (instrs : List InstrKind) (meas_time : Int)
    (val_range val_res channels : PyVal) (tic : Int)
    (pre rest : List IterEvent)
    (hcfg : (configPhase val_range val_res channels instrs
        (normalizeConf conf instrs.length)).2 = Option.none)
    (hok : (runLoop instrs tic meas_time tic pre).2 = Option.none) :
    read_instruments conf (.pyList instrs) meas_time val_range val_res
        channels tic (pre ++ .interrupt :: rest)
      = ⟨(configPhase val_range val_res channels instrs
            (normalizeConf conf instrs.length)).1,
         (runLoop instrs tic meas_time tic pre).1,
         Option.none⟩ := by
  have hr := runLoop_append_interrupt instrs tic meas_time rest pre tic hok
  unfold read_instruments
  simp only [normalizeInstrs, normalizeRunSpecs]
  rw [hcfg, hr]

/-- Witness for C3: one meter, one completed read cycle, then an
interrupt. -/
theorem cancelled_run_returns_collected_records_witness :
    (configPhase (.str "DEF") (.str "MIN") PyVal.none [.meter]
        (normalizeConf (.scalar "DCV") 1)).2 = Option.none
  ∧ (runLoop [.meter] 0 100 0 [.tick 1 ["1.0\r\n"]]).2 = Option.none
  ∧ read_instruments (.scalar "DCV") (.pyList [.meter]) 100 (.str "DEF")
        (.str "MIN") PyVal.none 0
        ([.tick 1 ["1.0\r\n"]] ++ .interrupt :: [.tick 2 ["9.0\r\n"]])
      = ⟨(configPhase (.str "DEF") (.str "MIN") PyVal.none [.meter]
            (normalizeConf (.scalar "DCV") 1)).1,
         (runLoop [.meter] 0 100 0 [.tick 1 ["1.0\r\n"]]).1,
         Option.none⟩ :=
  ⟨by decide, by decide,
   cancelled_run_returns_collected_records (.scalar "DCV") [.meter] 100
     (.str "DEF") (.str "MIN") PyVal.none 0 [.tick 1 ["1.0\r\n"]]
     [.tick 2 ["9.0\r\n"]] (by decide) (by decide)⟩

/-- C8: a run with duration 0 produces zero Sample Records and never
executes a read cycle — its outcome does not depend on the loop events —
while the per-instrument configuration commands are still sent before
the loop. -/
theorem zero_duration_no_records (conf : ConfSpec) (instrs : List InstrKind)
    (val_range val_res channels : PyVal) (tic : Int)
    (events : List IterEvent) :
    (read_instruments conf (.pyList instrs) 0 val_range val_res channels
        tic events).records = []
  ∧ (read_instruments conf (.pyList instrs) 0 val_range val_res channels
        tic events).sent
      = (configPhase val_range val_res channels instrs
          (normalizeConf conf instrs.length)).1
  ∧ read_instruments conf (.pyList instrs) 0 val_range val_res channels
        tic events
      = read_instruments conf (.pyList instrs) 0 val_range val_res channels
          tic [] := by
  have hloop : ∀ evs : List IterEvent,
      runLoop instrs tic 0 tic evs = ([], Option.none) := by
    intro evs
    cases evs with
    | nil => rfl
    | cons e r => simp [runLoop]
  unfold read_instruments
  simp only [normalizeInstrs, normalizeRunSpecs]
  cases hc : (configPhase val_range val_res channels instrs
      (normalizeConf conf instrs.length)).2 with
  | none => simp [hc, hloop]
  | some e => simp [hc]

/-- C4 amended: before configuring, the acquisition loop normalizes the
mode spec to one value per instrument when a scalar was supplied, but
the range spec is passed through unchanged — every instrument's
configure call receives the same caller-supplied range value. -/
theorem only_mode_spec_normalized (c : String) (val_range : PyVal) (n : Nat) :
    normalizeRunSpecs (.scalar c) val_range n
      = (List.replicate n c, val_range) := rfl

end SCPI
